import Mathlib

/-!
Shallow embedding of `src/templates/rust/src/main.rs` (a minimal Rust
project scaffold) and proofs of the specification's claims about it.

The source defines:
  * `hello(name: &str) -> String`, built with a format template
    `"Hello, {}!"`;
  * `add(a: i32, b: i32) -> i32`, plain `i32` addition (wrapping
    two's-complement semantics on overflow);
  * `main()`, which prints `hello("Rust")` followed by a newline and
    exits with status 0;
  * two unit tests, `test_hello` and `test_add`.
-/

namespace MontyStandards

/-- Piece of a Rust format-string template: either a literal chunk or the
`\x7b\x7d` placeholder that is replaced by the (single) argument. -/
inductive Piece where
  | lit (s : String)
  | arg
deriving DecidableEq, Repr

/-- Render a parsed format template against a single string argument, as
Rust's formatting machinery does for a one-argument template. -/
def render : List Piece → String → String
  | [], _ => ""
  | Piece.lit s :: rest, n => s ++ render rest n
  | Piece.arg :: rest, n => n ++ render rest n

/-- The template of the literal format string `"Hello, {}!"` from `hello`. -/
def helloTemplate : List Piece := [Piece.lit "Hello, ", Piece.arg, Piece.lit "!"]

/-- Embedding of `fn hello(name: &str) -> String { format!("Hello, {}!", name) }`. -/
def hello (name : String) : String := render helloTemplate name

/-- Smallest value of Rust's `i32`. -/
def i32Min : Int := -(2 ^ 31)

/-- Largest value of Rust's `i32`. -/
def i32Max : Int := 2 ^ 31 - 1

/-- An integer is representable as a Rust `i32`. -/
def isI32 (x : Int) : Prop := i32Min ≤ x ∧ x ≤ i32Max

instance (x : Int) : Decidable (isI32 x) := by
  unfold isI32
  infer_instance

/-- Two's-complement wrap of an integer into the `i32` range, the behaviour
of Rust `i32` arithmetic when it overflows. -/
def wrap32 (x : Int) : Int := (x + 2 ^ 31) % 2 ^ 32 - 2 ^ 31

/-- Embedding of `fn add(a: i32, b: i32) -> i32 { a + b }` with Rust's
wrapping two's-complement overflow semantics. -/
def add (a b : Int) : Int := wrap32 (a + b)

/-- The literal argument `main` passes to `hello` in
`println!("\x7b\x7d", hello("Rust"))`. -/
def mainArg : String := "Rust"

/-- Everything `main` writes to standard output: the rendered
`println!("\x7b\x7d", hello("Rust"))`, i.e. `hello mainArg` followed by a
newline. -/
def mainStdout : String := render [Piece.arg] (hello mainArg) ++ "\n"

/-- Exit status of `main`: it ends by falling off the end of `fn main`,
so the process exits with status 0. -/
def mainExitCode : Nat := 0

/-- Helper: `hello` is literally the three-way concatenation. -/
theorem hello_eq (name : String) : hello name = "Hello, " ++ name ++ "!" := by
  simp [hello, helloTemplate, render, String.append_assoc]

/-- Helper: `wrap32` is the identity on the `i32` range. -/
theorem wrap32_of_isI32 (x : Int) (h : isI32 x) : wrap32 x = x := by
  obtain ⟨h1, h2⟩ := h
  unfold wrap32
  unfold i32Min at h1
  unfold i32Max at h2
  omega

/-- Helper: `wrap32` always lands in the `i32` range. -/
theorem isI32_wrap32 (x : Int) : isI32 (wrap32 x) := by
  unfold isI32 wrap32 i32Min i32Max
  omega

/-- C1: for every string `name`, `hello name` is the concatenation of the
literal `"Hello, "`, `name`, and `"!"`; in particular `hello "World"` is
exactly `"Hello, World!"`. -/
theorem hello_spec :
    (∀ name : String, hello name = "Hello, " ++ name ++ "!") ∧
    hello "World" = "Hello, World!" := by
  refine ⟨hello_eq, ?_⟩
  rw [hello_eq]
  rfl

/-- C2: for `i32` inputs, `add` returns the arithmetic sum under wrapping
two's-complement semantics: the result is representable, it is congruent to
the exact sum modulo `2 ^ 32`, and it equals the exact sum whenever that sum
is itself representable. -/
theorem add_spec (a b : Int) (ha : isI32 a) (hb : isI32 b) :
    isI32 (add a b) ∧ (add a b - (a + b)) % 2 ^ 32 = 0 ∧
    (isI32 (a + b) → add a b = a + b) := by
  refine ⟨isI32_wrap32 _, ?_, fun h => wrap32_of_isI32 _ h⟩
  unfold add wrap32
  omega

/-- Witness for C2 at `a = 1`, `b = 2`. -/
theorem add_spec_witness :
    isI32 (add 1 2) ∧ (add 1 2 - (1 + 2)) % 2 ^ 32 = 0 ∧
    (isI32 ((1 : Int) + 2) → add 1 2 = 1 + 2) :=
  add_spec 1 2 (by decide) (by decide)

/-- C4: `add` is commutative on `i32` inputs. -/
theorem add_comm_spec (a b : Int) (ha : isI32 a) (hb : isI32 b) :
    add a b = add b a := by
  unfold add
  rw [Int.add_comm]

/-- Witness for C4 at `a = 2`, `b = 5`. -/
theorem add_comm_spec_witness : add 2 5 = add 5 2 :=
  add_comm_spec 2 5 (by decide) (by decide)

/-- C7: `add 2 3` returns exactly `5`, as the unit test `test_add` asserts. -/
theorem add_two_three : add 2 3 = 5 := by decide

/-- C9: on the empty string the greeting is still well formed:
`hello ""` is exactly `"Hello, !"`. -/
theorem hello_empty : hello "" = "Hello, !" := by
  rw [hello_eq]
  rfl

/-- C10: zero is a two-sided identity for `add` on the `i32` range. -/
theorem add_zero_identity (a : Int) (ha : isI32 a) :
    add a 0 = a ∧ add 0 a = a := by
  constructor
  · unfold add
    rw [Int.add_zero]
    exact wrap32_of_isI32 a ha
  · unfold add
    rw [Int.zero_add]
    exact wrap32_of_isI32 a ha

/-- Witness for C10 at `a = 7`. -/
theorem add_zero_identity_witness : add 7 0 = 7 ∧ add 0 7 = 7 :=
  add_zero_identity 7 (by decide)

/-- C8: the greeting function is injective: equal greetings come from equal
names. -/
theorem hello_injective (a b : String) (h : hello a = hello b) : a = b := by
  rw [hello_eq, hello_eq] at h
  have hd := congrArg String.data h
  simp only [String.data_append] at hd
  have h1 : ("Hello, " : String).data ++ a.data = ("Hello, " : String).data ++ b.data :=
    List.append_cancel_right hd
  have h2 : a.data = b.data := List.append_cancel_left h1
  exact String.ext h2

/-- Witness for C8 at `a = b = "Rust"`. -/
theorem hello_injective_witness :
    hello "Rust" = hello "Rust" ∧ ("Rust" : String) = "Rust" :=
  ⟨rfl, hello_injective "Rust" "Rust" rfl⟩

/-- C5: neither function can fail: `hello` produces a well-defined greeting
of length `name.length + 8` for every input string, and `add` produces a
representable `i32` result (no error condition) for every pair of `i32`
inputs. -/
theorem no_failure :
    (∀ name : String, (hello name).length = name.length + 8) ∧
    (∀ a b : Int, isI32 a → isI32 b → isI32 (add a b)) := by
  constructor
  · intro name
    rw [hello_eq]
    have h7 : ("Hello, " : String).length = 7 := rfl
    have h1 : ("!" : String).length = 1 := rfl
    simp [String.length_append, h7, h1]
    omega
  · intro a b _ _
    exact isI32_wrap32 _

/-- Witness for C5 at `name = "ab"`, `a = 1`, `b = 2`. -/
theorem no_failure_witness :
    (hello "ab").length = ("ab" : String).length + 8 ∧ isI32 (add 1 2) :=
  ⟨no_failure.1 "ab", no_failure.2 1 2 (by decide) (by decide)⟩

/-- C6: running the program produces exactly one line on standard output
(a single newline character, at the end), of the form
`"Hello, " ++ name ++ "!"` for the hard-coded literal name, and exits
with status 0. -/
theorem main_cli_surface :
    mainExitCode = 0 ∧
    mainStdout.data.count (Char.ofNat 10) = 1 ∧
    mainStdout = "Hello, " ++ mainArg ++ "!" ++ "\n" := by
  refine ⟨rfl, ?_, ?_⟩ <;> decide

/-- C3 counterexample: the entry point does not call the greeting function
with the literal `"Rust-equivalent placeholder"`: its hard-coded argument is
`"Rust"`, and its output differs from what printing
`hello "Rust-equivalent placeholder"` would produce. -/
theorem main_arg_not_placeholder :
    mainArg ≠ "Rust-equivalent placeholder" ∧
    mainStdout ≠ render [Piece.arg] (hello "Rust-equivalent placeholder") ++ "\n" := by
  constructor <;> decide

/-- C3 amended: the entry point calls the greeting function with the
literal input `"Rust"` and writes the result plus a trailing newline to
standard output. -/
theorem main_prints_hello_rust :
    mainStdout = hello "Rust" ++ "\n" ∧ mainArg = "Rust" := by
  constructor <;> decide

end MontyStandards
